import Mathlib

/-!
Shallow embedding of the risk-scoring and request-throttling core of the
Legal-AI-Contract-Generator repository (`risk_analyzer.py`,
`contract_generator.py`, and the rate limiter they construct).

The Python rule catalog uses a small fragment of regular expressions:
literal characters, `.` (any character except newline), `.*`, `.?`, and
`[\d,]+` (the `\$[\d,]+` pattern).  We embed exactly that fragment: an
atom is a literal, the any-character wildcard, or the digit-or-comma
class, and a pattern piece is an atom taken once, starred, optional, or
repeated at least once.  `re_search` mirrors Python's `re.search`: the
pattern may match starting at any position of the text.
-/

inductive Atom where
  | lit (c : Char)
  | anyChar
  | digitComma
deriving DecidableEq, Repr

inductive Piece where
  | once (a : Atom)
  | star (a : Atom)
  | opt (a : Atom)
  | plus (a : Atom)
deriving DecidableEq, Repr

def matchAtom : Atom → Char → Bool
  | .lit c, c2 => c == c2
  | .anyChar, c2 => !(c2 == '\n')
  | .digitComma, c2 => c2.isDigit || c2 == ','

/-- Scan a starred atom: try the continuation at every point, consuming
matching characters one at a time. -/
def matchStarH (a : Atom) (k : List Char → Bool) : List Char → Bool
  | [] => k []
  | c :: s => k (c :: s) || (matchAtom a c && matchStarH a k s)

/-- Does some prefix of the character list match the piece list? -/
def matchH : List Piece → List Char → Bool
  | [], _ => true
  | .once a :: ps, s =>
      match s with
      | [] => false
      | c :: s2 => matchAtom a c && matchH ps s2
  | .star a :: ps, s => matchStarH a (matchH ps) s
  | .opt a :: ps, s =>
      match s with
      | [] => matchH ps []
      | c :: s2 => matchH ps (c :: s2) || (matchAtom a c && matchH ps s2)
  | .plus a :: ps, s =>
      match s with
      | [] => false
      | c :: s2 => matchAtom a c && matchStarH a (matchH ps) s2

/-- Python `re.search`: the pattern may match at any start position. -/
def re_search (ps : List Piece) : List Char → Bool
  | [] => matchH ps []
  | c :: s => matchH ps (c :: s) || re_search ps s

/-- A run of literal characters, as pattern pieces. -/
def litP (s : String) : List Piece := s.data.map (fun c => Piece.once (Atom.lit c))

/-- The regex fragment `.*`. -/
def dotStar : List Piece := [Piece.star Atom.anyChar]

/-- The regex fragment `.?`. -/
def dotOpt : List Piece := [Piece.opt Atom.anyChar]

/-- The regex fragment `\$[\d,]+`. -/
def dollarAmount : List Piece := [Piece.once (Atom.lit '$'), Piece.plus Atom.digitComma]

/-- One entry of the risk-rule catalog (`_load_risk_rules`). -/
structure RiskRule where
  patterns : List (List Piece)
  severity : String
  weight : ℚ
  description : String
  recommendation : String
deriving DecidableEq, Repr

/-- The fixed rule catalog of `ContractRiskAnalyzer._load_risk_rules`,
in Python dict insertion order. -/
def risk_rules : List (String × RiskRule) :=
  [ ("missing_liability_cap",
     { patterns := [litP "liability" ++ dotStar ++ litP "limit",
                    litP "limitation" ++ dotStar ++ litP "liability",
                    litP "cap" ++ dotStar ++ litP "damages"],
       severity := "HIGH", weight := 0.9,
       description := "Missing or inadequate liability limitations",
       recommendation := "Add clear liability limitation clauses to cap financial exposure" }),
    ("missing_termination",
     { patterns := [litP "terminat",
                    litP "end" ++ dotStar ++ litP "agreement",
                    litP "expir",
                    litP "cancel"],
       severity := "HIGH", weight := 0.8,
       description := "Missing or unclear termination provisions",
       recommendation := "Include clear termination procedures and notice requirements" }),
    ("missing_governing_law",
     { patterns := [litP "governing" ++ dotStar ++ litP "law",
                    litP "governed" ++ dotStar ++ litP "by",
                    litP "jurisdiction",
                    litP "applicable" ++ dotStar ++ litP "law"],
       severity := "MEDIUM", weight := 0.7,
       description := "Missing governing law and jurisdiction clauses",
       recommendation := "Specify governing law and jurisdiction for dispute resolution" }),
    ("missing_confidentiality",
     { patterns := [litP "confidential",
                    litP "proprietary",
                    litP "non" ++ dotOpt ++ litP "disclos",
                    litP "trade" ++ dotStar ++ litP "secret"],
       severity := "MEDIUM", weight := 0.6,
       description := "Missing confidentiality and non-disclosure provisions",
       recommendation := "Add confidentiality clauses to protect sensitive information" }),
    ("vague_payment_terms",
     { patterns := [dollarAmount,
                    litP "payment" ++ dotStar ++ litP "schedule",
                    litP "compensation",
                    litP "fee"],
       severity := "MEDIUM", weight := 0.5,
       description := "Vague or missing payment terms",
       recommendation := "Specify clear payment amounts, schedules, and procedures" }),
    ("missing_late_fees",
     { patterns := [litP "late" ++ dotStar ++ litP "fee",
                    litP "interest" ++ dotStar ++ litP "overdue",
                    litP "penalty" ++ dotStar ++ litP "late"],
       severity := "LOW", weight := 0.3,
       description := "Missing late payment penalties",
       recommendation := "Consider adding late payment fees and interest charges" }),
    ("missing_ip_clauses",
     { patterns := [litP "intellectual" ++ dotStar ++ litP "property",
                    litP "copyright",
                    litP "trademark",
                    litP "patent",
                    litP "work" ++ dotStar ++ litP "product"],
       severity := "MEDIUM", weight := 0.6,
       description := "Missing intellectual property provisions",
       recommendation := "Clarify ownership and rights to intellectual property created" }),
    ("missing_force_majeure",
     { patterns := [litP "force" ++ dotStar ++ litP "majeure",
                    litP "act" ++ dotStar ++ litP "god",
                    litP "unforeseeable",
                    litP "beyond" ++ dotStar ++ litP "control"],
       severity := "LOW", weight := 0.4,
       description := "Missing force majeure provisions",
       recommendation := "Consider adding force majeure clauses for unforeseen circumstances" }),
    ("missing_amendment_clause",
     { patterns := [litP "amendment",
                    litP "modif",
                    litP "chang" ++ dotStar ++ litP "agreement",
                    litP "written" ++ dotStar ++ litP "consent"],
       severity := "LOW", weight := 0.3,
       description := "Missing amendment and modification procedures",
       recommendation := "Specify how the agreement can be amended or modified" }),
    ("missing_severability",
     { patterns := [litP "severab",
                    litP "invalid" ++ dotStar ++ litP "provision",
                    litP "unenforceable"],
       severity := "LOW", weight := 0.2,
       description := "Missing severability clause",
       recommendation := "Add severability clause to preserve agreement if one provision is invalid" }) ]

/-- Embeds `ContractRiskAnalyzer._categorize_risk`: first category whose rule-id
list contains the key, iterating the category dict in insertion order;
unmatched keys map to "General". -/
def categorize_risk (risk_id : String) : String :=
  if risk_id = "missing_liability_cap" ∨ risk_id = "vague_payment_terms" then "Liability"
  else if risk_id = "missing_termination" then "Termination"
  else if risk_id = "missing_governing_law" ∨ risk_id = "missing_amendment_clause" ∨
          risk_id = "missing_severability" then "Legal"
  else if risk_id = "missing_confidentiality" then "Confidentiality"
  else if risk_id = "vague_payment_terms" ∨ risk_id = "missing_late_fees" then "Financial"
  else if risk_id = "missing_ip_clauses" then "Intellectual Property"
  else if risk_id = "missing_force_majeure" then "Operational"
  else "General"

/-- One rule-based finding (the `risk` dict built in `analyze_contract_rules`). -/
structure Risk where
  risk_id : String
  severity : String
  weight : ℚ
  description : String
  recommendation : String
  category : String
deriving DecidableEq, Repr

/-- Embeds `contract_lower = contract_text.lower()` (ASCII case folding on the
character list). -/
def contract_lower (contract_text : String) : List Char :=
  contract_text.data.map Char.toLower

/-- The findings loop of `analyze_contract_rules`: for each catalog rule,
if no pattern matches the lower-cased text, emit a finding. -/
def risks_identified (contract_text : String) : List Risk :=
  risk_rules.filterMap (fun kr =>
    if kr.2.patterns.any (fun p => re_search p (contract_lower contract_text)) then none
    else some { risk_id := kr.1, severity := kr.2.severity, weight := kr.2.weight,
                description := kr.2.description, recommendation := kr.2.recommendation,
                category := categorize_risk kr.1 })

/-- The running `total_risk_score` accumulated over missing rules. -/
def total_risk_score (contract_text : String) : ℚ :=
  ((risks_identified contract_text).map Risk.weight).sum

/-- Embeds `max_possible_risk = sum(rule["weight"] for rule in self.risk_rules.values())`. -/
def max_possible_risk : ℚ := (risk_rules.map (fun kr => kr.2.weight)).sum

/-- Embeds `normalized_risk_score = min(total/max, 1.0) if max > 0 else 0`. -/
def normalized_risk_score (contract_text : String) : ℚ :=
  if 0 < max_possible_risk then min (total_risk_score contract_text / max_possible_risk) 1 else 0

/-- Python's banker's rounding to an integer (round half to even). -/
def round_half_even (q : ℚ) : ℤ :=
  if q - ⌊q⌋ < 1/2 then ⌊q⌋
  else if 1/2 < q - ⌊q⌋ then ⌊q⌋ + 1
  else if 2 ∣ ⌊q⌋ then ⌊q⌋ else ⌊q⌋ + 1

/-- Python `round(x, 2)`. -/
def round2 (q : ℚ) : ℚ := (round_half_even (q * 100) : ℚ) / 100

/-- The threshold chain of `analyze_contract_rules` (lines 196-202). -/
def risk_level_of (score : ℚ) : String :=
  if 0.7 ≤ score then "HIGH"
  else if 0.4 ≤ score then "MEDIUM"
  else "LOW"

/-- The HIGH/MEDIUM/LOW buckets returned by `_group_risks_by_severity`. -/
structure SeverityGroups where
  high : List Risk
  medium : List Risk
  low : List Risk
deriving DecidableEq, Repr

/-- Loop body of `_group_risks_by_severity`: append the risk to the bucket
named by its severity; severities outside the three keys are dropped. -/
def group_step (g : SeverityGroups) (r : Risk) : SeverityGroups :=
  if r.severity = "HIGH" then { g with high := g.high ++ [r] }
  else if r.severity = "MEDIUM" then { g with medium := g.medium ++ [r] }
  else if r.severity = "LOW" then { g with low := g.low ++ [r] }
  else g

/-- Embeds `ContractRiskAnalyzer._group_risks_by_severity`. -/
def group_risks_by_severity (risks : List Risk) : SeverityGroups :=
  risks.foldl group_step { high := [], medium := [], low := [] }

/-- Count of maximal non-whitespace runs; the `inWord` flag says whether
the previous character was part of a word. -/
def word_count_aux : List Char → Bool → Nat
  | [], _ => 0
  | c :: s, inWord =>
      if c.isWhitespace then word_count_aux s false
      else (if inWord then 0 else 1) + word_count_aux s true

/-- Python `len(contract_text.split())`: number of whitespace-delimited
tokens (empties dropped). -/
def word_count (t : String) : Nat := word_count_aux t.data false

/-- The dict returned by `analyze_contract_rules`.  `analysis_timestamp`
records the wall clock (`datetime.now()`) at the moment of the call,
modelled as an explicit rational-valued clock parameter. -/
structure RuleReport where
  success : Bool
  analysis_type : String
  overall_risk_score : ℚ
  risk_level : String
  total_risks : Nat
  risks_by_severity : SeverityGroups
  risks_identified : List Risk
  contract_length : Nat
  analysis_timestamp : ℚ
deriving DecidableEq, Repr

/-- Embeds `ContractRiskAnalyzer.analyze_contract_rules`.  The ambient clock read
by `datetime.now()` is passed explicitly as `now`. -/
def analyze_contract_rules (contract_text : String) (now : ℚ) : RuleReport :=
  { success := true
    analysis_type := "Rule-Based"
    overall_risk_score := round2 (normalized_risk_score contract_text)
    risk_level := risk_level_of (normalized_risk_score contract_text)
    total_risks := (risks_identified contract_text).length
    risks_by_severity := group_risks_by_severity (risks_identified contract_text)
    risks_identified := risks_identified contract_text
    contract_length := word_count contract_text
    analysis_timestamp := now }

/-- Count of maximal runs of sentence-ending punctuation; mirrors
`len(re.findall(r'[.!?]+', contract_text))` (non-overlapping greedy
matches are exactly the maximal runs). -/
def sentence_count_aux : List Char → Bool → Nat
  | [], _ => 0
  | c :: s, inRun =>
      if c == '.' || c == '!' || c == '?' then
        (if inRun then 0 else 1) + sentence_count_aux s true
      else sentence_count_aux s false

def sentence_count (t : String) : Nat := sentence_count_aux t.data false

/-- Split a character list at newline characters. -/
def linesOf : List Char → List (List Char)
  | [] => [[]]
  | c :: s =>
      if c == '\n' then [] :: linesOf s
      else
        match linesOf s with
        | [] => [[c]]
        | l :: ls => (c :: l) :: ls

/-- After the leading digits, the next character must be a period
(`\d+\.` continued). -/
def section_tail : List Char → Bool
  | [] => false
  | c :: s => if c.isDigit then section_tail s else c == '.'

/-- Does the line match `^\d+\.`? -/
def line_is_section : List Char → Bool
  | [] => false
  | c :: s => c.isDigit && section_tail s

/-- Embeds `len(re.findall(r'^\d+\.', contract_text, re.MULTILINE))`: with the
multiline flag, `^` anchors at the string start and after each newline,
so this counts the lines whose head matches `\d+\.`. -/
def section_count (t : String) : Nat :=
  ((linesOf t.data).filter line_is_section).length

/-- The dict built by `_extract_contract_statistics`. -/
structure ContractStatistics where
  word_count : Nat
  character_count : Nat
  sentence_count : Nat
  section_count : Nat
  estimated_pages : Nat
  reading_time_minutes : Nat
  complexity_score : Nat
deriving DecidableEq, Repr

/-- Embeds `ContractRiskAnalyzer._extract_contract_statistics`. -/
def extract_contract_statistics (contract_text : String) : ContractStatistics :=
  { word_count := word_count contract_text
    character_count := contract_text.data.length
    sentence_count := sentence_count contract_text
    section_count := section_count contract_text
    estimated_pages := max 1 (word_count contract_text / 250)
    reading_time_minutes := max 1 (word_count contract_text / 200)
    complexity_score := min 10 (max 1 (word_count contract_text / 200)) }

/-- Embeds `ContractRiskAnalyzer._get_high_priority_recommendations`. -/
def get_high_priority_recommendations (risks : List Risk) : List String :=
  (risks.filter (fun r => r.severity == "HIGH")).map Risk.recommendation

/-- Embeds `ContractRiskAnalyzer._get_medium_priority_recommendations`. -/
def get_medium_priority_recommendations (risks : List Risk) : List String :=
  (risks.filter (fun r => r.severity == "MEDIUM")).map Risk.recommendation

/-- Embeds `ContractRiskAnalyzer._get_low_priority_recommendations`: the Python
body consists of the docstring alone, so the function falls off its end
and returns `None` — despite its `List[str]` annotation.  We model the
returned value as an optional list; the other two tiers always return a
list, this one always returns `none`. -/
def get_low_priority_recommendations (_risks : List Risk) : Option (List String) :=
  none

/-- The `overall_risk_assessment` block of the combined report. -/
structure OverallRiskAssessment where
  risk_level : String
  risk_score : ℚ
  confidence : String
  total_issues : Nat
deriving DecidableEq, Repr

/-- The `ai_analysis` block of the combined report. -/
structure AiAnalysisSection where
  detailed_analysis : String
  model_used : String
  analysis_depth : String
deriving DecidableEq, Repr

/-- The `rule_based_analysis` block of the combined report. -/
structure RuleBasedSection where
  risks_identified : List Risk
  risks_by_severity : SeverityGroups
  missing_clauses : Nat
  critical_gaps : Nat
deriving DecidableEq, Repr

/-- The `recommendations` block: the LOW tier is optional because the
low-priority extractor returns `None`. -/
structure RecommendationTiers where
  immediate_actions : List String
  medium_term_improvements : List String
  long_term_considerations : Option (List String)
deriving DecidableEq, Repr

/-- The `analysis_metadata` block; `analyzed_at` is the clock reading. -/
structure AnalysisMetadata where
  analyzed_at : ℚ
  analysis_time : String
  cost : String
  model : String
deriving DecidableEq, Repr

/-- The dict returned by `_combine_analyses`. -/
structure CombinedReport where
  success : Bool
  analysis_type : String
  overall_risk_assessment : OverallRiskAssessment
  ai_analysis : AiAnalysisSection
  rule_based_analysis : RuleBasedSection
  contract_statistics : ContractStatistics
  recommendations : RecommendationTiers
  analysis_metadata : AnalysisMetadata
deriving DecidableEq, Repr

/-- Embeds `ContractRiskAnalyzer._combine_analyses`. -/
def combine_analyses (ai_analysis : String) (rule_analysis : RuleReport)
    (contract_text : String) (now : ℚ) : CombinedReport :=
  { success := true
    analysis_type := "Comprehensive (AI + Rule-Based)"
    overall_risk_assessment :=
      { risk_level := rule_analysis.risk_level
        risk_score := rule_analysis.overall_risk_score
        confidence := "High"
        total_issues := rule_analysis.total_risks }
    ai_analysis :=
      { detailed_analysis := ai_analysis
        model_used := "Google Gemini 1.5 Flash"
        analysis_depth := "Comprehensive" }
    rule_based_analysis :=
      { risks_identified := rule_analysis.risks_identified
        risks_by_severity := rule_analysis.risks_by_severity
        missing_clauses := rule_analysis.risks_identified.length
        critical_gaps := (rule_analysis.risks_identified.filter (fun r => r.severity == "HIGH")).length }
    contract_statistics := extract_contract_statistics contract_text
    recommendations :=
      { immediate_actions := get_high_priority_recommendations rule_analysis.risks_identified
        medium_term_improvements := get_medium_priority_recommendations rule_analysis.risks_identified
        long_term_considerations := get_low_priority_recommendations rule_analysis.risks_identified }
    analysis_metadata :=
      { analyzed_at := now
        analysis_time := "< 30 seconds"
        cost := "$0.00 (Free Tier)"
        model := "Gemini 1.5 Flash + Rule Engine" } }

/-- The `{"success": False, "error": ..., "timestamp": ...}` dict built in
the `except` branch of `analyze_contract_comprehensive`. -/
structure ErrorReport where
  success : Bool
  error : String
  timestamp : ℚ
deriving DecidableEq, Repr

/-- Embeds `ContractRiskAnalyzer.analyze_contract_comprehensive`.  The external
call `self.model.generate_content(prompt)` is the only fallible step and
is passed in as `ai_response`: `Except.ok text` when the service returned
a completion, `Except.error msg` when it raised.  Everything inside the
Python `try` after that point is infallible, so the whole method returns
either the combined report, or — when the external call raised — the
error dict built in the `except` branch.  Note the rule-based analysis
runs inside the `try`, after the external call. -/
def analyze_contract_comprehensive (ai_response : Except String String)
    (contract_text : String) (now : ℚ) : Except ErrorReport CombinedReport :=
  match ai_response with
  | .error e =>
      .error { success := false, error := "Contract analysis failed: " ++ e, timestamp := now }
  | .ok ai_text =>
      .ok (combine_analyses ai_text (analyze_contract_rules contract_text now) contract_text now)

/-- Trailing-window purge (spec §4.3 step 1): drop the timestamps that
have fallen out of the window, keep those with `now - t < window`. -/
def purge (window : ℤ) (now : ℤ) (ts : List ℤ) : List ℤ :=
  ts.filter (fun t => now - t < window)

/-- Modelled from the spec: the acquire loop of the RateLimiter
(spec §4.3), whose implementation (`utils.py`) is not among the source
files.  Purge, admit if below the ceiling, otherwise sleep until the
oldest timestamp expires and retry.  The loop is totalized with a fuel
parameter; each retry strictly shrinks the purged list, so fuel
`ts.length + 1` always suffices.  Returns the new timestamp list and the
(simulated-clock) instant at which the call was admitted, `none` when the
ceiling is zero and nothing can ever be admitted. -/
def wait_loop (fuel : Nat) (max_requests : Nat) (window : ℤ) (ts : List ℤ) (now : ℤ) :
    List ℤ × Option ℤ :=
  match fuel with
  | 0 => (purge window now ts, none)
  | fuel + 1 =>
      let ts2 := purge window now ts
      if ts2.length < max_requests then (ts2 ++ [now], some now)
      else
        match ts2.min? with
        | none => (ts2, none)
        | some oldest => wait_loop fuel max_requests window ts2 (now + max 0 (window - (now - oldest)))

/-- Modelled from the spec: RateLimiter state — the configured per-window
ceiling, the window duration, and the recorded timestamps. -/
structure RateLimiterState where
  max_requests : Nat
  window : ℤ
  timestamps : List ℤ
deriving DecidableEq, Repr

/-- Modelled from the spec: `RateLimiter(max_requests_per_minute=...)` —
a fresh limiter with a 60-unit window and no recorded timestamps. -/
def RateLimiter.init (max_requests_per_minute : Nat) : RateLimiterState :=
  { max_requests := max_requests_per_minute, window := 60, timestamps := [] }

/-- Modelled from the spec: `RateLimiter.wait_if_needed` / `acquire()` at
clock `now`; returns the updated limiter and the admission instant. -/
def wait_if_needed (st : RateLimiterState) (now : ℤ) : RateLimiterState × Option ℤ :=
  let r := wait_loop (st.timestamps.length + 1) st.max_requests st.window st.timestamps now
  ({ st with timestamps := r.1 }, r.2)

/-- The `ContractGenerator` state: the slice relevant to throttling, namely
the rate limiter constructed in `ContractGenerator.__init__`. -/
structure ContractGeneratorState where
  rate_limiter : RateLimiterState
deriving DecidableEq, Repr

/-- The `ContractRiskAnalyzer` state: the rate limiter constructed in
`ContractRiskAnalyzer.__init__`. -/
structure ContractRiskAnalyzerState where
  rate_limiter : RateLimiterState
deriving DecidableEq, Repr

/-- Embeds `ContractGenerator.__init__`: `self.rate_limiter = RateLimiter(max_requests_per_minute=15)`. -/
def ContractGenerator.init : ContractGeneratorState :=
  { rate_limiter := RateLimiter.init 15 }

/-- Embeds `ContractRiskAnalyzer.__init__`: `self.rate_limiter = RateLimiter(max_requests_per_minute=15)`. -/
def ContractRiskAnalyzer.init : ContractRiskAnalyzerState :=
  { rate_limiter := RateLimiter.init 15 }

/-- The process state after `app.py` initializes both AI components:
one `ContractGenerator` object and one `ContractRiskAnalyzer` object,
each holding the limiter its own constructor created. -/
structure AppState where
  contract_generator : ContractGeneratorState
  risk_analyzer : ContractRiskAnalyzerState
deriving DecidableEq, Repr

def App.init : AppState :=
  { contract_generator := ContractGenerator.init, risk_analyzer := ContractRiskAnalyzer.init }

/-- The generation path's throttling step (`_generate_contract` calls
`self.rate_limiter.wait_if_needed()` before the outbound call): it
touches the generator's own limiter. -/
def generator_acquire (s : AppState) (now : ℤ) : AppState × Option ℤ :=
  let r := wait_if_needed s.contract_generator.rate_limiter now
  ({ s with contract_generator := { rate_limiter := r.1 } }, r.2)

/-- The analysis path's throttling step (`analyze_contract_comprehensive`
calls `self.rate_limiter.wait_if_needed()` before the outbound call): it
touches the analyzer's own limiter. -/
def analyzer_acquire (s : AppState) (now : ℤ) : AppState × Option ℤ :=
  let r := wait_if_needed s.risk_analyzer.rate_limiter now
  ({ s with risk_analyzer := { rate_limiter := r.1 } }, r.2)

/-- Runs `n` back-to-back generation-path acquires at clock `now`. -/
def generator_acquire_iter : Nat → AppState → ℤ → AppState
  | 0, s, _ => s
  | n + 1, s, now => generator_acquire_iter n (generator_acquire s now).1 now

/-- The normalization formula exactly as the spec words it (§4.1):
`min(total_weight_of_missing_rules / total_weight_of_all_rules, 1.0)`,
and 0 when the catalog's total weight is 0.  Stated separately from the
code-derived `analyze_contract_rules` so the two can be compared. -/
def spec_score (t : String) : ℚ :=
  if max_possible_risk = 0 then 0
  else min (total_risk_score t / max_possible_risk) 1

/-- A rule report with its clock stamp scrubbed, for comparing two runs
field-by-field apart from `analysis_timestamp`. -/
def erase_timestamp (r : RuleReport) : RuleReport :=
  { r with analysis_timestamp := 0 }

/-! ### General lemmas about the embedded definitions -/

theorem group_go (l : List Risk) (g : SeverityGroups) :
    l.foldl group_step g =
      { high := g.high ++ l.filter (fun r => r.severity == "HIGH"),
        medium := g.medium ++ l.filter (fun r => r.severity == "MEDIUM"),
        low := g.low ++ l.filter (fun r => r.severity == "LOW") } := by
  induction l generalizing g with
  | nil => simp
  | cons r t ih =>
    rw [List.foldl_cons, ih]
    by_cases h1 : r.severity = "HIGH"
    · simp [group_step, h1, List.filter_cons]
    · by_cases h2 : r.severity = "MEDIUM"
      · simp [group_step, h1, h2, List.filter_cons]
      · by_cases h3 : r.severity = "LOW"
        · simp [group_step, h1, h2, h3, List.filter_cons]
        · simp [group_step, h1, h2, h3, List.filter_cons]

theorem filter_three_length (l : List Risk)
    (hcov : ∀ r ∈ l, r.severity = "HIGH" ∨ r.severity = "MEDIUM" ∨ r.severity = "LOW") :
    (l.filter (fun r => r.severity == "HIGH")).length
      + (l.filter (fun r => r.severity == "MEDIUM")).length
      + (l.filter (fun r => r.severity == "LOW")).length = l.length := by
  induction l with
  | nil => simp
  | cons r t ih =>
    have hr := hcov r (List.mem_cons_self r t)
    have ht : ∀ x ∈ t, x.severity = "HIGH" ∨ x.severity = "MEDIUM" ∨ x.severity = "LOW" :=
      fun x hx => hcov x (List.mem_cons_of_mem r hx)
    have hih := ih ht
    rcases hr with h | h | h <;> simp [List.filter_cons, h] <;> omega

theorem risks_identified_mem (t : String) (r : Risk) (hr : r ∈ risks_identified t) :
    ∃ kr ∈ risk_rules, r.severity = kr.2.severity ∧ r.weight = kr.2.weight := by
  rw [risks_identified] at hr
  obtain ⟨kr, hkr, heq⟩ := List.mem_filterMap.mp hr
  refine ⟨kr, hkr, ?_⟩
  split at heq
  · simp at heq
  · injection heq with h
    subst h
    exact ⟨rfl, rfl⟩

theorem risks_identified_severity (t : String) :
    ∀ r ∈ risks_identified t,
      r.severity = "HIGH" ∨ r.severity = "MEDIUM" ∨ r.severity = "LOW" := by
  intro r hr
  obtain ⟨kr, hkr, hsev, -⟩ := risks_identified_mem t r hr
  have hall : ∀ kr2 ∈ risk_rules,
      kr2.2.severity = "HIGH" ∨ kr2.2.severity = "MEDIUM" ∨ kr2.2.severity = "LOW" := by decide
  rw [hsev]
  exact hall kr hkr

theorem risk_rules_weight_nonneg : ∀ kr ∈ risk_rules, 0 ≤ kr.2.weight := by
  intro kr hkr
  fin_cases hkr <;> norm_num

theorem total_risk_score_nonneg (t : String) : 0 ≤ total_risk_score t := by
  rw [total_risk_score]
  apply List.sum_nonneg
  intro x hx
  obtain ⟨r, hr, hxw⟩ := List.mem_map.mp hx
  obtain ⟨kr, hkr, -, hw⟩ := risks_identified_mem t r hr
  rw [← hxw, hw]
  exact risk_rules_weight_nonneg kr hkr

theorem weights_eval :
    risk_rules.map (fun kr => kr.2.weight) = [0.9, 0.8, 0.7, 0.6, 0.5, 0.3, 0.6, 0.4, 0.3, 0.2] := rfl

theorem max_possible_risk_eval : max_possible_risk = 53/10 := by
  rw [max_possible_risk, weights_eval]
  norm_num

theorem normalized_eq_spec (t : String) : normalized_risk_score t = spec_score t := by
  rw [normalized_risk_score, spec_score, max_possible_risk_eval]
  norm_num

theorem normalized_risk_score_bounds (t : String) :
    0 ≤ normalized_risk_score t ∧ normalized_risk_score t ≤ 1 := by
  rw [normalized_risk_score]
  split_ifs with h
  · exact ⟨le_min (div_nonneg (total_risk_score_nonneg t) (le_of_lt h)) zero_le_one,
      min_le_right _ _⟩
  · norm_num

theorem round_half_even_bounds (x : ℚ) (h0 : 0 ≤ x) (h1 : x ≤ 100) :
    0 ≤ round_half_even x ∧ round_half_even x ≤ 100 := by
  have hf0 : 0 ≤ ⌊x⌋ := Int.floor_nonneg.mpr h0
  have hf1 : ⌊x⌋ ≤ 100 := by
    have h2 : ⌊x⌋ ≤ ⌊(100 : ℚ)⌋ := Int.floor_le_floor h1
    simpa using h2
  rw [round_half_even]
  split_ifs with hlt hgt hdvd
  · exact ⟨hf0, hf1⟩
  · have hx : (⌊x⌋ : ℚ) < x := by linarith
    have hx2 : (⌊x⌋ : ℚ) < 100 := lt_of_lt_of_le hx h1
    have hx3 : ⌊x⌋ < 100 := by exact_mod_cast hx2
    omega
  · exact ⟨hf0, hf1⟩
  · have hge : 1/2 ≤ x - ⌊x⌋ := le_of_not_lt hlt
    have hx : (⌊x⌋ : ℚ) < x := by linarith
    have hx2 : (⌊x⌋ : ℚ) < 100 := lt_of_lt_of_le hx h1
    have hx3 : ⌊x⌋ < 100 := by exact_mod_cast hx2
    omega

theorem round2_bounds (q : ℚ) (h0 : 0 ≤ q) (h1 : q ≤ 1) : 0 ≤ round2 q ∧ round2 q ≤ 1 := by
  obtain ⟨a, b⟩ := round_half_even_bounds (q * 100) (by positivity) (by linarith)
  rw [round2]
  constructor
  · exact div_nonneg (by exact_mod_cast a) (by norm_num)
  · rw [div_le_one (by norm_num)]
    exact_mod_cast b

theorem wait_loop_length_le (fuel max_requests : Nat) (window : ℤ) (ts : List ℤ) (now : ℤ)
    (h : ts.length ≤ max_requests) :
    ((wait_loop fuel max_requests window ts now).1).length ≤ max_requests := by
  induction fuel generalizing ts now with
  | zero =>
    rw [wait_loop, purge]
    exact le_trans (List.length_filter_le _ ts) h
  | succ fuel ih =>
    rw [wait_loop]
    have hlen : (purge window now ts).length ≤ ts.length := by
      rw [purge]; exact List.length_filter_le _ ts
    by_cases hc : (purge window now ts).length < max_requests
    · simp only [hc, if_true]
      simp [List.length_append]
      omega
    · simp only [hc, if_false]
      cases hmin : (purge window now ts).min? with
      | none => exact le_trans hlen h
      | some oldest => exact ih _ _ (le_trans hlen h)

theorem wait_if_needed_length_le (st : RateLimiterState) (now : ℤ)
    (h : st.timestamps.length ≤ st.max_requests) :
    ((wait_if_needed st now).1).timestamps.length ≤ st.max_requests := by
  rw [wait_if_needed]
  exact wait_loop_length_le _ _ _ _ _ h

/-! ### Concrete evaluations used by several claim theorems -/

theorem missing_weights_empty :
    (risks_identified "").map Risk.weight = [0.9, 0.8, 0.7, 0.6, 0.5, 0.3, 0.6, 0.4, 0.3, 0.2] := rfl

theorem missing_weights_two_matched :
    (risks_identified "liability limits jurisdiction").map Risk.weight
      = [0.8, 0.6, 0.5, 0.3, 0.6, 0.4, 0.3, 0.2] := rfl

theorem missing_weights_one_matched :
    (risks_identified "liability limit").map Risk.weight
      = [0.8, 0.7, 0.6, 0.5, 0.3, 0.6, 0.4, 0.3, 0.2] := rfl

theorem norm_score_empty : normalized_risk_score "" = 1 := by
  rw [normalized_risk_score, max_possible_risk_eval, total_risk_score, missing_weights_empty]
  norm_num

theorem norm_score_two_matched : normalized_risk_score "liability limits jurisdiction" = 37/53 := by
  rw [normalized_risk_score, max_possible_risk_eval, total_risk_score, missing_weights_two_matched]
  norm_num

theorem norm_score_one_matched : normalized_risk_score "liability limit" = 44/53 := by
  rw [normalized_risk_score, max_possible_risk_eval, total_risk_score, missing_weights_one_matched]
  norm_num

theorem round2_one_eval : round2 1 = 1 := by
  rw [round2, round_half_even]
  have h : ⌊(1 : ℚ) * 100⌋ = 100 := by
    rw [Int.floor_eq_iff]
    norm_num
  rw [h]
  norm_num

theorem round2_37_53_eval : round2 (37/53) = 7/10 := by
  rw [round2, round_half_even]
  have h : ⌊(37/53 : ℚ) * 100⌋ = 69 := by
    rw [Int.floor_eq_iff]
    norm_num
  rw [h]
  norm_num

theorem round2_44_53_eval : round2 (44/53) = 83/100 := by
  rw [round2, round_half_even]
  have h : ⌊(44/53 : ℚ) * 100⌋ = 83 := by
    rw [Int.floor_eq_iff]
    norm_num
  rw [h]
  norm_num

/-! ### Claim theorems -/

/-- C1 (counterexample): the claim says that when the external AI call
failed, the returned report still includes the full rule-based section.
In the code, `analyze_contract_comprehensive` runs the rule-based
analysis inside the same `try` block, after the external call: when the
external call raises, the `except` branch returns the bare error dict
`{"success": False, "error": ..., "timestamp": ...}` — which contains no
rule-based section at all — so the external failure is surfaced as a
failure of the whole analysis. -/
theorem c1_degraded_mode_counterexample :
    analyze_contract_comprehensive (Except.error "503 quota exhausted") "liability limit" 0 =
      Except.error { success := false,
                     error := "Contract analysis failed: " ++ "503 quota exhausted",
                     timestamp := 0 } := rfl

/-- C1 (amended): there is no degraded mode.  When the external call
fails, `analyze_contract_comprehensive` catches the exception and
returns an error record with `success = False` and no rule-based
section; only when the external call succeeds does it return the
combined report, which then does carry the full rule-based section
(findings, severity buckets, and the rule-derived risk level). -/
theorem c1_degraded_mode (e ai_text contract_text : String) (now : ℚ) :
    analyze_contract_comprehensive (Except.error e) contract_text now =
      Except.error { success := false, error := "Contract analysis failed: " ++ e,
                     timestamp := now } ∧
    analyze_contract_comprehensive (Except.ok ai_text) contract_text now =
      Except.ok (combine_analyses ai_text (analyze_contract_rules contract_text now)
        contract_text now) ∧
    (combine_analyses ai_text (analyze_contract_rules contract_text now) contract_text
        now).rule_based_analysis.risks_identified = risks_identified contract_text ∧
    (combine_analyses ai_text (analyze_contract_rules contract_text now) contract_text
        now).rule_based_analysis.risks_by_severity
      = group_risks_by_severity (risks_identified contract_text) ∧
    (combine_analyses ai_text (analyze_contract_rules contract_text now) contract_text
        now).overall_risk_assessment.risk_level
      = (analyze_contract_rules contract_text now).risk_level :=
  ⟨rfl, rfl, rfl, rfl, rfl⟩

/-- C2 (counterexample): two calls of `analyze_contract_rules` on the
same text do NOT return equal reports over every field: the report
carries `analysis_timestamp = datetime.now().isoformat()`, so two runs
at different clock readings differ in that field. -/
theorem c2_determinism_counterexample :
    analyze_contract_rules "" 0 ≠ analyze_contract_rules "" 1 ∧
    (analyze_contract_rules "" 0).analysis_timestamp = 0 ∧
    (analyze_contract_rules "" 1).analysis_timestamp = 1 := by
  refine ⟨fun h => ?_, rfl, rfl⟩
  have h2 := congrArg RuleReport.analysis_timestamp h
  have h3 : (0 : ℚ) = 1 := h2
  norm_num at h3

/-- C2 (amended): apart from `analysis_timestamp` — which records the
wall clock at the moment of the call — every field of the report
returned by `analyze_contract_rules` is a pure function of the fixed
catalog and the input text: two runs at arbitrary clock readings agree
on all other fields. -/
theorem c2_determinism (t : String) (now1 now2 : ℚ) :
    erase_timestamp (analyze_contract_rules t now1)
      = erase_timestamp (analyze_contract_rules t now2) := rfl

/-- C3: the risk-level thresholds are exact inclusive lower bounds on
the normalized score: `score >= 0.7` gives HIGH, `0.4 <= score < 0.7`
gives MEDIUM, `score < 0.4` gives LOW; in particular 0.699999 gives
MEDIUM, 0.7 gives HIGH, 0.399999 gives LOW, and 0.4 gives MEDIUM. -/
theorem c3_thresholds (s : ℚ) :
    (0.7 ≤ s → risk_level_of s = "HIGH") ∧
    (0.4 ≤ s → s < 0.7 → risk_level_of s = "MEDIUM") ∧
    (s < 0.4 → risk_level_of s = "LOW") ∧
    risk_level_of 0.699999 = "MEDIUM" ∧ risk_level_of 0.7 = "HIGH" ∧
    risk_level_of 0.399999 = "LOW" ∧ risk_level_of 0.4 = "MEDIUM" := by
  refine ⟨?_, ?_, ?_, ?_, ?_, ?_, ?_⟩
  · intro h
    rw [risk_level_of, if_pos h]
  · intro h1 h2
    rw [risk_level_of, if_neg (not_le.mpr h2), if_pos h1]
  · intro h
    have h7 : ¬(0.7 : ℚ) ≤ s := by norm_num at h ⊢; linarith
    rw [risk_level_of, if_neg h7, if_neg (not_le.mpr h)]
  · rw [risk_level_of]
    norm_num
  · rw [risk_level_of]
    norm_num
  · rw [risk_level_of]
    norm_num
  · rw [risk_level_of]
    norm_num

/-- C3 witness: the threshold theorem applied at concrete scores. -/
theorem c3_thresholds_witness :
    risk_level_of 1 = "HIGH" ∧ risk_level_of 0.5 = "MEDIUM" ∧ risk_level_of 0.1 = "LOW" :=
  ⟨(c3_thresholds 1).1 (by norm_num),
   (c3_thresholds 0.5).2.1 (by norm_num) (by norm_num),
   (c3_thresholds 0.1).2.2.1 (by norm_num)⟩

/-- C4: on the empty text no pattern of any rule matches, so every
catalog rule becomes a finding, and the normalized score is the maximum
1.0 (the catalog indeed has a rule of nonzero weight). -/
theorem c4_empty_text :
    (∃ kr ∈ risk_rules, kr.2.weight ≠ 0) ∧
    (risks_identified "").map Risk.risk_id = risk_rules.map Prod.fst ∧
    (analyze_contract_rules "" 0).total_risks = risk_rules.length ∧
    (analyze_contract_rules "" 0).overall_risk_score = 1 := by
  refine ⟨?_, rfl, rfl, ?_⟩
  · simp only [risk_rules]
    exact ⟨_, List.mem_cons_self _ _, by norm_num⟩
  · show round2 (normalized_risk_score "") = 1
    rw [norm_score_empty, round2_one_eval]

/-- C5 (counterexample): the claim says the reported
`overall_risk_score` *is* `min(total missing weight / total weight, 1)`.
It is not: the code reports `round(normalized_score, 2)`.  On the text
"liability limit" only the liability rule is satisfied, the spec formula
gives 44/53, and the report carries 0.83 ≠ 44/53. -/
theorem c5_score_counterexample :
    (analyze_contract_rules "liability limit" 0).overall_risk_score
      ≠ spec_score "liability limit" ∧
    spec_score "liability limit" = 44/53 ∧
    (analyze_contract_rules "liability limit" 0).overall_risk_score = 83/100 := by
  have hs : spec_score "liability limit" = 44/53 := by
    rw [← normalized_eq_spec, norm_score_one_matched]
  have hr : (analyze_contract_rules "liability limit" 0).overall_risk_score = 83/100 := by
    show round2 (normalized_risk_score "liability limit") = 83/100
    rw [norm_score_one_matched, round2_44_53_eval]
  refine ⟨?_, hs, hr⟩
  rw [hr, hs]
  norm_num

/-- C5 (amended): for every text the reported `overall_risk_score` is
the spec formula `min(total missing weight / total weight, 1)` (0 for a
zero-weight catalog) rounded to two decimal places with banker's
rounding, and it always lies between 0 and 1 inclusive. -/
theorem c5_score (t : String) (now : ℚ) :
    (analyze_contract_rules t now).overall_risk_score = round2 (spec_score t) ∧
    0 ≤ (analyze_contract_rules t now).overall_risk_score ∧
    (analyze_contract_rules t now).overall_risk_score ≤ 1 := by
  have h1 : (analyze_contract_rules t now).overall_risk_score
      = round2 (normalized_risk_score t) := rfl
  obtain ⟨hb0, hb1⟩ := normalized_risk_score_bounds t
  obtain ⟨hr0, hr1⟩ := round2_bounds _ hb0 hb1
  refine ⟨?_, ?_, ?_⟩
  · rw [h1, normalized_eq_spec]
  · rw [h1]
    exact hr0
  · rw [h1]
    exact hr1

/-- C6: for every text, the severity grouping of the rule report is a
partition of the findings: the HIGH, MEDIUM and LOW bucket lengths sum
to `total_risks`, and each bucket is exactly the findings of that
severity in finding (catalog) order. -/
theorem c6_partition (t : String) (now : ℚ) :
    (analyze_contract_rules t now).risks_by_severity.high.length
      + (analyze_contract_rules t now).risks_by_severity.medium.length
      + (analyze_contract_rules t now).risks_by_severity.low.length
      = (analyze_contract_rules t now).total_risks ∧
    (analyze_contract_rules t now).risks_by_severity.high
      = (analyze_contract_rules t now).risks_identified.filter (fun r => r.severity == "HIGH") ∧
    (analyze_contract_rules t now).risks_by_severity.medium
      = (analyze_contract_rules t now).risks_identified.filter (fun r => r.severity == "MEDIUM") ∧
    (analyze_contract_rules t now).risks_by_severity.low
      = (analyze_contract_rules t now).risks_identified.filter (fun r => r.severity == "LOW") := by
  have hg : group_risks_by_severity (risks_identified t) =
      { high := (risks_identified t).filter (fun r => r.severity == "HIGH"),
        medium := (risks_identified t).filter (fun r => r.severity == "MEDIUM"),
        low := (risks_identified t).filter (fun r => r.severity == "LOW") } := by
    rw [group_risks_by_severity, group_go]
    simp
  refine ⟨?_, ?_, ?_, ?_⟩
  · show (group_risks_by_severity (risks_identified t)).high.length
        + (group_risks_by_severity (risks_identified t)).medium.length
        + (group_risks_by_severity (risks_identified t)).low.length
        = (risks_identified t).length
    rw [hg]
    exact filter_three_length _ (risks_identified_severity t)
  · show (group_risks_by_severity (risks_identified t)).high
        = (risks_identified t).filter (fun r => r.severity == "HIGH")
    rw [hg]
  · show (group_risks_by_severity (risks_identified t)).medium
        = (risks_identified t).filter (fun r => r.severity == "MEDIUM")
    rw [hg]
  · show (group_risks_by_severity (risks_identified t)).low
        = (risks_identified t).filter (fun r => r.severity == "LOW")
    rw [hg]

/-- C7: in every combined report the immediate tier is the HIGH
findings' recommendations in finding order and the medium tier the
MEDIUM ones — but the long-term (LOW) tier is `None`, not an empty
list: `_get_low_priority_recommendations` consists of a docstring only,
falls off its end, and returns `None` despite its `List[str]`
annotation.  On the empty text there are LOW-severity findings whose
recommendations are silently dropped. -/
theorem c7_low_tier_none :
    (∀ (ai contract_text : String) (r : RuleReport) (now : ℚ),
      (combine_analyses ai r contract_text now).recommendations.immediate_actions
        = (r.risks_identified.filter (fun x => x.severity == "HIGH")).map Risk.recommendation ∧
      (combine_analyses ai r contract_text now).recommendations.medium_term_improvements
        = (r.risks_identified.filter (fun x => x.severity == "MEDIUM")).map Risk.recommendation ∧
      (combine_analyses ai r contract_text now).recommendations.long_term_considerations
        = none) ∧
    (∀ risks : List Risk, get_low_priority_recommendations risks ≠ some []) ∧
    (analyze_contract_rules "" 0).risks_identified.filter (fun x => x.severity == "LOW") ≠ [] := by
  refine ⟨fun ai t r now => ⟨rfl, rfl, rfl⟩, fun risks h => Option.noConfusion h, ?_⟩
  decide

/-- C8 (counterexample): the two caller paths do NOT share one
process-wide limiter.  `ContractGenerator.__init__` and
`ContractRiskAnalyzer.__init__` each construct their own
`RateLimiter(max_requests_per_minute=15)`.  After 15 generation-path
acquires at t=0 the generator's own limiter is full (a 16th
generation-path call would wait until t=60), yet the analyzer's limiter
still holds no timestamps and an analysis-path call at t=0 is admitted
immediately — under a shared quota it would have had to wait. -/
theorem c8_shared_limiter_counterexample :
    (generator_acquire_iter 15 App.init 0).risk_analyzer.rate_limiter.timestamps = [] ∧
    (generator_acquire_iter 15 App.init 0).contract_generator.rate_limiter.timestamps.length
      = 15 ∧
    (generator_acquire (generator_acquire_iter 15 App.init 0) 0).2 = some 60 ∧
    (analyzer_acquire (generator_acquire_iter 15 App.init 0) 0).2 = some 0 ∧
    (generator_acquire_iter 15 App.init 0).risk_analyzer.rate_limiter
      ≠ (generator_acquire_iter 15 App.init 0).contract_generator.rate_limiter := by
  refine ⟨by decide, by decide, by decide, by decide, by decide⟩

/-- C8 (amended): both caller paths do invoke the limiter before every
outbound call, but each on the `RateLimiter(15)` instance its own
constructor created: a generation-path acquire never touches the
analyzer's limiter state and vice versa, so the per-minute quota is
counted separately per path rather than shared. -/
theorem c8_per_path_limiter (s : AppState) (now : ℤ) :
    (generator_acquire s now).1.risk_analyzer = s.risk_analyzer ∧
    (analyzer_acquire s now).1.contract_generator = s.contract_generator ∧
    (generator_acquire s now).1.contract_generator.rate_limiter
      = (wait_if_needed s.contract_generator.rate_limiter now).1 ∧
    (generator_acquire s now).2 = (wait_if_needed s.contract_generator.rate_limiter now).2 ∧
    (analyzer_acquire s now).1.risk_analyzer.rate_limiter
      = (wait_if_needed s.risk_analyzer.rate_limiter now).1 ∧
    (analyzer_acquire s now).2 = (wait_if_needed s.risk_analyzer.rate_limiter now).2 ∧
    App.init.contract_generator.rate_limiter = RateLimiter.init 15 ∧
    App.init.risk_analyzer.rate_limiter = RateLimiter.init 15 :=
  ⟨rfl, rfl, rfl, rfl, rfl, rfl, rfl, rfl⟩

/-- C9: the limiter's ceiling invariant and the spec's clocked scenario.
Whenever the recorded-timestamp count is within the ceiling before an
acquire, it still is afterwards (purging only removes entries, and a new
entry is only recorded when the purged count is strictly below the
ceiling).  With ceiling 2 and a 60-unit window, three acquires at t=0
are admitted at t=0, t=0 and t=60 (the third waits one window), and a
fourth call at t=61 is admitted immediately. -/
theorem c9_rate_limiter (st : RateLimiterState) (now : ℤ)
    (h : st.timestamps.length ≤ st.max_requests) :
    ((wait_if_needed st now).1).timestamps.length ≤ st.max_requests ∧
    (wait_if_needed (RateLimiter.init 2) 0).2 = some 0 ∧
    (wait_if_needed (wait_if_needed (RateLimiter.init 2) 0).1 0).2 = some 0 ∧
    (wait_if_needed (wait_if_needed (wait_if_needed (RateLimiter.init 2) 0).1 0).1 0).2
      = some 60 ∧
    (wait_if_needed
      (wait_if_needed (wait_if_needed (wait_if_needed (RateLimiter.init 2) 0).1 0).1 0).1
      61).2 = some 61 :=
  ⟨wait_if_needed_length_le st now h, by decide, by decide, by decide, by decide⟩

/-- C9 witness: the limiter theorem applied to a concrete limiter state. -/
theorem c9_rate_limiter_witness :
    (RateLimiter.init 2).timestamps.length ≤ (RateLimiter.init 2).max_requests ∧
    (((wait_if_needed (RateLimiter.init 2) 5).1).timestamps.length
      ≤ (RateLimiter.init 2).max_requests ∧
    (wait_if_needed (RateLimiter.init 2) 0).2 = some 0 ∧
    (wait_if_needed (wait_if_needed (RateLimiter.init 2) 0).1 0).2 = some 0 ∧
    (wait_if_needed (wait_if_needed (wait_if_needed (RateLimiter.init 2) 0).1 0).1 0).2
      = some 60 ∧
    (wait_if_needed
      (wait_if_needed (wait_if_needed (wait_if_needed (RateLimiter.init 2) 0).1 0).1 0).1
      61).2 = some 61) :=
  ⟨by decide, c9_rate_limiter (RateLimiter.init 2) 5 (by decide)⟩

/-- C10: the reported `overall_risk_score` is the normalized score
rounded to two decimals while `risk_level` is derived from the unrounded
score; on "liability limits jurisdiction" the unrounded score is
37/53 ∈ [0.695, 0.7), so the report carries score 0.7 together with
level MEDIUM. -/
theorem c10_rounding :
    (∀ (t : String) (now : ℚ),
      (analyze_contract_rules t now).overall_risk_score = round2 (normalized_risk_score t) ∧
      (analyze_contract_rules t now).risk_level = risk_level_of (normalized_risk_score t)) ∧
    (695/1000 : ℚ) ≤ normalized_risk_score "liability limits jurisdiction" ∧
    normalized_risk_score "liability limits jurisdiction" < 7/10 ∧
    (analyze_contract_rules "liability limits jurisdiction" 0).overall_risk_score = 7/10 ∧
    (analyze_contract_rules "liability limits jurisdiction" 0).risk_level = "MEDIUM" := by
  refine ⟨fun t now => ⟨rfl, rfl⟩, ?_, ?_, ?_, ?_⟩
  · rw [norm_score_two_matched]
    norm_num
  · rw [norm_score_two_matched]
    norm_num
  · show round2 (normalized_risk_score "liability limits jurisdiction") = 7/10
    rw [norm_score_two_matched, round2_37_53_eval]
  · show risk_level_of (normalized_risk_score "liability limits jurisdiction") = "MEDIUM"
    rw [norm_score_two_matched, risk_level_of]
    norm_num
